import Mathlib

set_option maxRecDepth 10000

/-!
Verification of the real-time chat subsystem of a social travel platform
backend: a shallow embedding of the connection gateway (socket handlers),
the chat persistence service, the message entity methods, and the
Redis-backed cache / pub-sub glue, together with theorems settling the
behavioural claims about them.

Conventions of the embedding:
* Mongo ObjectIds, user ids, room ids and socket ids are `String`s.
* Timestamps (`Date.now`, `createdAt`, `editedAt`, ...) are `Nat`s
  supplied explicitly by the caller.
* The message store is a `List Message`; `findById` is `List.find?` on
  the id, `updateMany` is a `List.map` over the matching documents.
* The Redis cache is an association list of `(key, ttlSeconds, value)`
  entries; `DEL key` (the `deleteCache` helper) removes the entry whose
  key is literally equal to its argument.
* A socket handler's observable output is the list of events it emits,
  each tagged with its destination: the calling socket (`socket.emit`),
  the other members of a room (`socket.to(room).emit`), or the whole
  room including the caller (`io.to(room).emit`).
* An operation that JavaScript would complete with a thrown exception is
  an `Except String` value whose `error` carries the message.
-/

namespace Chat

/-- Destination of an emitted socket event: the calling socket itself,
the other members of a room (`socket.to`), or every member of a room
including the caller (`io.to`). -/
inductive Target where
  | caller : Target
  | roomOthers : String → Target
  | room : String → Target
deriving DecidableEq, Repr

/-- An emitted event: destination and event name. -/
structure Emit where
  target : Target
  event : String
deriving DecidableEq, Repr

/-- A reaction subdocument of the message schema:
`{ user, emoji, createdAt }`. -/
structure Reaction where
  user : String
  emoji : String
  createdAt : Nat
deriving DecidableEq, Repr

/-- A read receipt subdocument of the message schema:
`{ user, readAt }`. -/
structure ReadEntry where
  user : String
  readAt : Nat
deriving DecidableEq, Repr

/-- An attachment subdocument: `{ type, url, filename, size }`
(`type` is called `kind` here because `type` is reserved in Lean). -/
structure Attachment where
  kind : String
  url : String
  filename : String
  size : Nat
deriving DecidableEq, Repr

/-- The persisted chat message document (messageModel schema). -/
structure Message where
  id : String
  sender : String
  content : String
  messageType : String
  chatRoom : String
  chatType : String
  parentMessage : Option String
  attachments : List Attachment
  readBy : List ReadEntry
  reactions : List Reaction
  editedAt : Option Nat
  originalContent : Option String
  isDeleted : Bool
  deletedAt : Option Nat
  createdAt : Nat
deriving DecidableEq, Repr

/-- JavaScript truthiness of an optional string field
(`undefined` and `""` are falsy, every other string is truthy). -/
def truthyOptStr : Option String → Bool
  | none => false
  | some s => !(s == "")

/-- The whitespace characters `String.prototype.trim` strips. -/
def jsWhitespace (c : Char) : Bool :=
  c == ' ' || c == '\t' || c == '\n' || c == '\r'

/-- JavaScript `content.trim()`: drop leading and trailing
whitespace. -/
def jsTrim (s : String) : String :=
  String.mk (((s.data.dropWhile jsWhitespace).reverse.dropWhile jsWhitespace).reverse)

/-! ### Room category derivation (ChatSocket helper methods) -/

/-- `ChatSocket.determineChatType`: derive the chat type from the room
id by string prefix. -/
def determineChatType (roomId : String) : String :=
  if roomId.startsWith "journey_" then "group_planning"
  else if roomId.startsWith "location_" then "location_chat"
  else if roomId.startsWith "qa_" then "qa_chat"
  else "direct"

/-! ### Room access policy (ChatSocket.validateRoomAccess)

The source dispatches on the room type and, as written, returns `true`
for every recognised room type (each branch is annotated
"Simplified for now"); only an unrecognised type is denied. -/

/-- `ChatSocket.validateRoomAccess(userId, roomId, roomType)` as the
code actually computes it. -/
def validateRoomAccess (_userId _roomId roomType : String) : Bool :=
  if roomType == "group_planning" then true
  else if roomType == "location_chat" then true
  else if roomType == "qa_chat" then true
  else if roomType == "direct" then true
  else false

/-- One step of splitting a character list on underscores. -/
def underscoreStep (ch : Char) (acc : List (List Char)) : List (List Char) :=
  if ch = '_' then [] :: acc
  else
    match acc with
    | [] => [[ch]]
    | g :: gs => (ch :: g) :: gs

/-- Split a string on `_` (used only to state the intended room-id
parse). -/
def splitOnUnderscore (s : String) : List String :=
  (s.toList.foldr underscoreStep [[]]).map (fun cs => String.mk cs)

/-- Modelled from the spec: the intended room-access rule for `qa_chat`
rooms (spec section 4.1): the caller must be either the original asker
encoded in the room id `qa_<journeyId>_<askerId>` or the journey's
creator. `creatorOf` is the external journey-creator lookup. -/
def specQaChatAccess (creatorOf : String → String) (userId roomId : String) : Bool :=
  match splitOnUnderscore roomId with
  | ["qa", journeyId, askerId] => userId == askerId || userId == creatorOf journeyId
  | _ => false

/-! ### The join_room handler -/

/-- Result of the `join_room` handler: whether `socket.join` ran, and
the events emitted. -/
structure JoinResult where
  joined : Bool
  emits : List Emit
deriving DecidableEq, Repr

/-- Placeholder for the value emitted as `chat_history`; the handler's
history fetch is passed in as an `Except` so that a throwing fetch can
be modelled. -/
def joinRoomHandler (userId roomId roomType : String)
    (history : Except String Unit) : JoinResult :=
  if !(validateRoomAccess userId roomId roomType) then
    { joined := false, emits := [⟨Target.caller, "error"⟩] }
  else
    match history with
    | Except.error _ =>
        -- socket.join(roomId) has already run when getChatHistory throws;
        -- the catch block emits a caller-scoped error.
        { joined := true, emits := [⟨Target.caller, "error"⟩] }
    | Except.ok _ =>
        { joined := true
          emits := [⟨Target.caller, "chat_history"⟩,
                    ⟨Target.roomOthers roomId, "user_joined"⟩] }

/-! ### The cross-instance relay (ChatSocket.handleRedisMessage) -/

/-- A published pub/sub payload, after `JSON.parse`: the `type`
discriminator plus the optional fields the various publishers attach.
A field a publisher did not set is `none` (JavaScript `undefined`). -/
structure RedisPayload where
  type : String
  messageId : Option String
  userId : Option String
  emoji : Option String
  newContent : Option String
  editedAt : Option Nat
  messageIds : Option (List String)
  message : Option Message
deriving DecidableEq, Repr

/-- `ChatSocket.handleRedisMessage(data)`. Every branch other than
`new_message` dereferences `payload.message.chatRoom`; when the payload
has no `message` field this is a JavaScript `TypeError`, modelled as
`Except.error`. -/
def handleRedisMessage (p : RedisPayload) : Except String (List Emit) :=
  if p.type == "new_message" then
    Except.ok []
  else if p.type == "reaction_added" then
    match p.message with
    | none => Except.error "TypeError: cannot read chatRoom of undefined"
    | some m => Except.ok [⟨Target.room m.chatRoom, "reaction_updated"⟩]
  else if p.type == "reaction_removed" then
    match p.message with
    | none => Except.error "TypeError: cannot read chatRoom of undefined"
    | some m => Except.ok [⟨Target.room m.chatRoom, "reaction_updated"⟩]
  else if p.type == "message_edited" then
    match p.message with
    | none => Except.error "TypeError: cannot read chatRoom of undefined"
    | some m => Except.ok [⟨Target.room m.chatRoom, "message_updated"⟩]
  else if p.type == "message_deleted" then
    match p.message with
    | none => Except.error "TypeError: cannot read chatRoom of undefined"
    | some m => Except.ok [⟨Target.room m.chatRoom, "message_deleted"⟩]
  else if p.type == "messages_read" then
    match p.message with
    | none => Except.error "TypeError: cannot read chatRoom of undefined"
    | some m => Except.ok [⟨Target.room m.chatRoom, "messages_read"⟩]
  else
    Except.ok []

/-- The payload `ChatService.addReaction` publishes on the room channel:
`{ type: 'reaction_added', messageId, userId, emoji }` — note that no
`message` field is attached. -/
def reactionAddedPayload (messageId userId emoji : String) : RedisPayload :=
  { type := "reaction_added", messageId := some messageId,
    userId := some userId, emoji := some emoji, newContent := none,
    editedAt := none, messageIds := none, message := none }

/-- The payload `ChatService.removeReaction` publishes:
`{ type: 'reaction_removed', messageId, userId }`. -/
def reactionRemovedPayload (messageId userId : String) : RedisPayload :=
  { type := "reaction_removed", messageId := some messageId,
    userId := some userId, emoji := none, newContent := none,
    editedAt := none, messageIds := none, message := none }

/-- The payload `ChatService.editMessage` publishes:
`{ type: 'message_edited', messageId, newContent, editedAt }`. -/
def messageEditedPayload (messageId newContent : String) (editedAt : Nat) : RedisPayload :=
  { type := "message_edited", messageId := some messageId,
    userId := none, emoji := none, newContent := some newContent,
    editedAt := some editedAt, messageIds := none, message := none }

/-- The payload `ChatService.deleteMessage` publishes:
`{ type: 'message_deleted', messageId }`. -/
def messageDeletedPayload (messageId : String) : RedisPayload :=
  { type := "message_deleted", messageId := some messageId,
    userId := none, emoji := none, newContent := none,
    editedAt := none, messageIds := none, message := none }

/-- The payload `ChatService.markMessagesAsRead` publishes:
`{ type: 'messages_read', userId, messageIds }`. -/
def messagesReadPayload (userId : String) (messageIds : List String) : RedisPayload :=
  { type := "messages_read", messageId := none,
    userId := some userId, emoji := none, newContent := none,
    editedAt := none, messageIds := some messageIds, message := none }

/-! ### The Redis cache (utils/redisClient cache helpers)

Entries are `(key, ttlSeconds, value)`. `setCache` uses `SETEX`
(overwrites the key), `getCache` uses `GET`, `deleteCache` uses `DEL`
on the *literal* key — redis `DEL` does no glob expansion, so a key
containing `*` is just a key. The separate `deleteCachePattern` helper
(which expands the glob via `KEYS`) exists in the source but is not
called by any chat-service mutation. -/

/-- The cache, generic in the cached value. -/
abbrev Cache (V : Type) : Type := List (String × Nat × V)

/-- `setCache(key, value, ttl)`: `SETEX` overwrites the key. -/
def setCache {V : Type} (c : Cache V) (key : String) (value : V) (ttl : Nat) : Cache V :=
  (key, ttl, value) :: c.filter (fun e => !(e.1 == key))

/-- `getCache(key)`. -/
def getCache {V : Type} (c : Cache V) (key : String) : Option V :=
  (c.find? (fun e => e.1 == key)).map (fun e => e.2.2)

/-- `deleteCache(key)`: redis `DEL` of the literal key. -/
def deleteCache {V : Type} (c : Cache V) (key : String) : Cache V :=
  c.filter (fun e => !(e.1 == key))

/-- `deleteCachePattern(pattern)`: `KEYS pattern` then `DEL` of every
match; here only `*`-suffix patterns matter, matched by `startsWith` on
the pattern's stem. -/
def deleteCachePatternStar {V : Type} (c : Cache V) (stem : String) : Cache V :=
  c.filter (fun e => !(e.1.startsWith stem))

/-! ### Message entity methods (messageModel) -/

/-- Replace the emoji of the *first* reaction of `u` (what the JS
`find`-then-mutate in `messageSchema.methods.addReaction` does when an
existing reaction is found). -/
def updateFirstEmoji : List Reaction → String → String → List Reaction
  | [], _, _ => []
  | r :: rs, u, e =>
      if r.user == u then { r with emoji := e } :: rs
      else r :: updateFirstEmoji rs u e

/-- `messageSchema.methods.addReaction(userId, emoji)` on the reactions
array: update the existing reaction of the user if there is one,
otherwise push `{ user, emoji }` (with `createdAt` defaulted). -/
def addReactionList (rs : List Reaction) (u e : String) (now : Nat) : List Reaction :=
  if rs.any (fun r => r.user == u) then updateFirstEmoji rs u e
  else rs ++ [⟨u, e, now⟩]

/-- `messageSchema.methods.removeReaction(userId)` on the reactions
array: keep only reactions of other users. -/
def removeReactionList (rs : List Reaction) (u : String) : List Reaction :=
  rs.filter (fun r => !(r.user == u))

/-- `message.addReaction(userId, emoji)`. -/
def Message.addReaction (m : Message) (u e : String) (now : Nat) : Message :=
  { m with reactions := addReactionList m.reactions u e now }

/-- `message.removeReaction(userId)`. -/
def Message.removeReaction (m : Message) (u : String) : Message :=
  { m with reactions := removeReactionList m.reactions u }

/-! ### Chat persistence service (chatService) -/

/-- The chat-history cache key,
`chat_history:<room>:<page>:<limit>`. -/
def historyKey (chatRoom : String) (page limit : Nat) : String :=
  "chat_history:" ++ chatRoom ++ ":" ++ toString page ++ ":" ++ toString limit

/-- The argument the chat-service mutations pass to `deleteCache`:
`chat_history:<room>*` — a glob that `DEL` treats as a literal key. -/
def historyWildcard (chatRoom : String) : String :=
  "chat_history:" ++ chatRoom ++ "*"

/-- Pagination block of a history result. -/
structure Pagination where
  currentPage : Nat
  totalPages : Nat
  totalMessages : Nat
  hasNext : Bool
  hasPrev : Bool
deriving DecidableEq, Repr

/-- A chat-history result: the page of messages (oldest first) plus
pagination. -/
structure HistoryResult where
  messages : List Message
  pagination : Pagination
deriving DecidableEq, Repr

/-- Insert a message into a list sorted by `createdAt` descending. -/
def insertByCreatedAtDesc (m : Message) : List Message → List Message
  | [] => [m]
  | x :: xs =>
      if x.createdAt ≤ m.createdAt then m :: x :: xs
      else x :: insertByCreatedAtDesc m xs

/-- `.sort({ createdAt: -1 })`: sort newest first. -/
def sortByCreatedAtDesc : List Message → List Message
  | [] => []
  | m :: ms => insertByCreatedAtDesc m (sortByCreatedAtDesc ms)

/-- `ChatService.getChatHistory(chatRoom, page, limit)` over the store
and cache: serve the cached page if the key is present, otherwise read
the non-deleted messages of the room newest-first, slice the page,
reverse it to oldest-first, and cache the result for 300 seconds.
Returns the result and the updated cache. -/
def getChatHistory (store : List Message) (c : Cache HistoryResult)
    (chatRoom : String) (page limit : Nat) : HistoryResult × Cache HistoryResult :=
  let cacheKey := historyKey chatRoom page limit
  match getCache c cacheKey with
  | some cached => (cached, c)
  | none =>
      let skip := (page - 1) * limit
      let live := store.filter (fun m => m.chatRoom == chatRoom && m.isDeleted == false)
      let pageMsgs := ((sortByCreatedAtDesc live).drop skip).take limit
      let total := live.length
      let totalPages := (total + limit - 1) / limit
      let result : HistoryResult :=
        { messages := pageMsgs.reverse
          pagination :=
            { currentPage := page, totalPages := totalPages, totalMessages := total
              hasNext := decide (page < totalPages), hasPrev := decide (1 < page) } }
      (result, setCache c cacheKey result 300)

/-- The snapshot-then-overwrite step of `ChatService.editMessage` on
the found document: `if (!message.originalContent)` snapshot the
current content, then set the new content and the edited timestamp. -/
def editMessageDoc (m : Message) (newContent : String) (now : Nat) : Message :=
  let m1 := if !(truthyOptStr m.originalContent) then
              { m with originalContent := some m.content }
            else m
  { m1 with content := newContent, editedAt := some now }

/-- `ChatService.editMessage(messageId, userId, newContent)` over the
store and cache: find the message, reject a missing id or a non-sender,
otherwise save the edited document and run the (literal-key) cache
delete. -/
def editMessage (store : List Message) (c : Cache HistoryResult)
    (messageId userId newContent : String) (now : Nat) :
    Except String (List Message × Cache HistoryResult) :=
  match store.find? (fun m => m.id == messageId) with
  | none => Except.error "Message not found"
  | some m =>
      if !(m.sender == userId) then
        Except.error "Can only edit your own messages"
      else
        let store2 := store.map (fun x =>
          if x.id == messageId then editMessageDoc x newContent now else x)
        Except.ok (store2, deleteCache c (historyWildcard m.chatRoom))

/-- The `updateMany` filter of `ChatService.markMessagesAsRead`:
`{ chatRoom, 'readBy.user': { $ne: userId } }`, plus
`_id: { $in: messageIds }` when `messageIds` is non-empty. -/
def matchesReadQuery (chatRoom userId : String) (messageIds : List String)
    (m : Message) : Bool :=
  m.chatRoom == chatRoom
  && !(m.readBy.any (fun r => r.user == userId))
  && (messageIds.isEmpty || messageIds.contains m.id)

/-- `ChatService.markMessagesAsRead(chatRoom, userId, messageIds)`:
push a `readBy` entry onto every matching message; the returned count
is `modifiedCount`, the number of matching documents. -/
def markMessagesAsRead (store : List Message) (chatRoom userId : String)
    (messageIds : List String) (now : Nat) : List Message × Nat :=
  let updated := store.map (fun m =>
    if matchesReadQuery chatRoom userId messageIds m then
      { m with readBy := m.readBy ++ [⟨userId, now⟩] }
    else m)
  (updated, (store.filter (matchesReadQuery chatRoom userId messageIds)).length)

/-! ### The send_message handler -/

/-- The `messageData` object the handler assembles for
`chatService.saveMessage`. -/
structure MessageData where
  sender : String
  content : String
  messageType : String
  chatRoom : String
  chatType : String
  attachments : List Attachment
  parentMessage : Option String
deriving DecidableEq, Repr

/-- The `messageData` the `send_message` handler assembles for a text
message without attachments or parent: trimmed content, chat type
derived from the room id. -/
def sendMessageData (userId roomId content : String) : MessageData :=
  { sender := userId, content := jsTrim content, messageType := "text"
    chatRoom := roomId, chatType := determineChatType roomId
    attachments := [], parentMessage := none }

/-- Result of the `send_message` handler: the emitted events, the
`messageData` handed to the persistence service (`none` when no
persistence was attempted), and the saved message that was broadcast
(`none` when nothing was broadcast). -/
structure SendResult where
  emits : List Emit
  persistedWith : Option MessageData
  broadcast : Option Message
deriving DecidableEq, Repr

/-- The `send_message` handler. `save` stands for the awaited
`chatService.saveMessage` call; an `Except.error` models a throwing
save, caught by the handler's catch block. Validation failures emit a
caller-only error and never reach the save. On success the saved
message is emitted as `new_message` via `io.to(roomId)` — the whole
room, sender included. -/
def sendMessageHandler (userId roomId content : String)
    (save : MessageData → Except String Message) : SendResult :=
  if content == "" || jsTrim content == "" then
    { emits := [⟨Target.caller, "error"⟩], persistedWith := none, broadcast := none }
  else if 1000 < content.length then
    { emits := [⟨Target.caller, "error"⟩], persistedWith := none, broadcast := none }
  else
    let md : MessageData := sendMessageData userId roomId content
    match save md with
    | Except.ok saved =>
        { emits := [⟨Target.room roomId, "new_message"⟩]
          persistedWith := some md, broadcast := some saved }
    | Except.error _ =>
        { emits := [⟨Target.caller, "error"⟩]
          persistedWith := some md, broadcast := none }

/-- The message `chatService.saveMessage` persists for a given
`messageData` (id and timestamp assigned at persistence time, the other
schema fields defaulted). -/
def mkSavedMessage (md : MessageData) (newId : String) (now : Nat) : Message :=
  { id := newId, sender := md.sender, content := md.content
    messageType := md.messageType, chatRoom := md.chatRoom
    chatType := md.chatType, parentMessage := md.parentMessage
    attachments := md.attachments, readBy := [], reactions := []
    editedAt := none, originalContent := none, isDeleted := false
    deletedAt := none, createdAt := now }

/-! ### The remaining client-event handlers (error policy)

Each handler awaits one chat-service call and catches its own
failures. The service call is passed in as an `Except`; the handler's
observable output is the list of events it emits. On success, the
reaction/edit/delete/read handlers emit nothing directly (fan-out goes
through the pub/sub relay). -/

/-- The `add_reaction` handler: catch block emits a caller-scoped
error. -/
def addReactionHandler (svc : Except String Unit) : List Emit :=
  match svc with
  | Except.ok _ => []
  | Except.error _ => [⟨Target.caller, "error"⟩]

/-- The `remove_reaction` handler: catch block emits a caller-scoped
error. -/
def removeReactionHandler (svc : Except String Unit) : List Emit :=
  match svc with
  | Except.ok _ => []
  | Except.error _ => [⟨Target.caller, "error"⟩]

/-- The `edit_message` handler: catch block emits a caller-scoped
error. -/
def editMessageHandler (svc : Except String Unit) : List Emit :=
  match svc with
  | Except.ok _ => []
  | Except.error _ => [⟨Target.caller, "error"⟩]

/-- The `delete_message` handler: catch block emits a caller-scoped
error. -/
def deleteMessageHandler (svc : Except String Unit) : List Emit :=
  match svc with
  | Except.ok _ => []
  | Except.error _ => [⟨Target.caller, "error"⟩]

/-- The `mark_messages_read` handler: its catch block only logs — it
emits no event at all on failure. -/
def markMessagesReadHandler (svc : Except String Unit) : List Emit :=
  match svc with
  | Except.ok _ => []
  | Except.error _ => []

/-! ### Presence map (ChatSocket.connectedUsers) -/

/-- The `userId -> socketId` map, as an association list in insertion
order (a JavaScript `Map`). -/
abbrev PresenceMap : Type := List (String × String)

/-- `Map.set(userId, socketId)`: update the existing entry in place,
or append a new one. -/
def presenceSet (m : PresenceMap) (userId socketId : String) : PresenceMap :=
  if m.any (fun p => p.1 == userId) then
    m.map (fun p => if p.1 == userId then (userId, socketId) else p)
  else m ++ [(userId, socketId)]

/-- `Map.get(userId)`. -/
def presenceGet (m : PresenceMap) (userId : String) : Option String :=
  (m.find? (fun p => p.1 == userId)).map (fun p => p.2)

/-- `Map.delete(userId)`. -/
def presenceDelete (m : PresenceMap) (userId : String) : PresenceMap :=
  m.filter (fun p => !(p.1 == userId))

/-- `ChatSocket.handleConnection`: `connectedUsers.set(userId, socket.id)`. -/
def handleConnection (m : PresenceMap) (userId socketId : String) : PresenceMap :=
  presenceSet m userId socketId

/-- The `disconnect` handler: `connectedUsers.delete(userId)` — the
socket id of the disconnecting connection is not consulted. -/
def handleDisconnect (m : PresenceMap) (userId : String) (_socketId : String) : PresenceMap :=
  presenceDelete m userId

/-! ### Concrete sample data used by counterexamples and witnesses -/

/-- A freshly saved message in room `r1`. -/
def sampleMessage : Message :=
  { id := "m1", sender := "u1", content := "hi there", messageType := "text"
    chatRoom := "r1", chatType := "direct", parentMessage := none
    attachments := [], readBy := [], reactions := [], editedAt := none
    originalContent := none, isDeleted := false, deletedAt := none
    createdAt := 1 }

/-- A one-message store for the stale-cache scenario. -/
def c3Store : List Message := [sampleMessage]

/-- The cache after a first `getChatHistory` call on the empty cache:
it holds the page for `(r1, 1, 50)`. -/
def c3CacheAfterRead : Cache HistoryResult :=
  (getChatHistory c3Store [] "r1" 1 50).2

/-- A 1001-character message body (over the 1000-character limit). -/
def longContent : String := String.mk (List.replicate 1001 'a')

/-! ### Statement-level helpers for the reaction and read-receipt
invariants -/

/-- The reactions of user `u` on a reactions array. -/
def reactionsFor (rs : List Reaction) (u : String) : List Reaction :=
  rs.filter (fun r => r.user == u)

/-- The per-message invariant: at most one reaction entry per user. -/
def atMostOnePerUser (rs : List Reaction) : Prop :=
  ∀ u, (reactionsFor rs u).length ≤ 1

/-- A reaction operation: `addReaction(user, emoji)` at a time, or
`removeReaction(user)`. -/
inductive ReactOp where
  | add : String → String → Nat → ReactOp
  | remove : String → ReactOp
deriving DecidableEq, Repr

/-- Apply one reaction operation to a message. -/
def applyReactOp (m : Message) : ReactOp → Message
  | ReactOp.add u e t => m.addReaction u e t
  | ReactOp.remove u => m.removeReaction u

/-- Apply a sequence of reaction operations to a message. -/
def applyReactOps (m : Message) (ops : List ReactOp) : Message :=
  ops.foldl applyReactOp m

/-- The read receipts of user `u` on a `readBy` array. -/
def readsFor (entries : List ReadEntry) (u : String) : List ReadEntry :=
  entries.filter (fun r => r.user == u)

/-!
## Theorems settling the claims
-/

/-- C1: the claim says a `join_room` request for a `qa_<j>_<a>` room by
a user who is neither the asker nor the journey creator is denied
(access check false, caller-only error, no join, no history, no
`user_joined`). The code's `validateRoomAccess` returns `true` for
every `qa_chat` request, so the third party `u3` (not the asker `u1`,
not the creator `creator1` of journey `j1`) is admitted: the join runs,
history is emitted to the caller and `user_joined` is broadcast —
while the spec-modelled rule for the same input denies access. -/
theorem c1_qa_chat_third_party_not_denied :
    validateRoomAccess "u3" "qa_j1_u1" "qa_chat" = true
    ∧ joinRoomHandler "u3" "qa_j1_u1" "qa_chat" (Except.ok ()) =
        { joined := true
          emits := [⟨Target.caller, "chat_history"⟩,
                    ⟨Target.roomOthers "qa_j1_u1", "user_joined"⟩] }
    ∧ specQaChatAccess (fun _ => "creator1") "u3" "qa_j1_u1" = false :=
  ⟨rfl, rfl, rfl⟩

/-- C2: the claim says the relay re-emits published
reaction/edit/delete/read events to the affected message's room without
raising an error. Every such branch of `handleRedisMessage` reads
`payload.message.chatRoom`, but none of the publishers
(`addReaction`, `removeReaction`, `editMessage`, `deleteMessage`,
`markMessagesAsRead`) attaches a `message` field to its payload, so
each published event makes the relay throw a `TypeError` and nothing is
re-emitted. -/
theorem c2_relay_crashes_on_published_payloads :
    handleRedisMessage (reactionAddedPayload "m1" "u1" "thumbsup")
      = Except.error "TypeError: cannot read chatRoom of undefined"
    ∧ handleRedisMessage (reactionRemovedPayload "m1" "u1")
      = Except.error "TypeError: cannot read chatRoom of undefined"
    ∧ handleRedisMessage (messageEditedPayload "m1" "new text" 5)
      = Except.error "TypeError: cannot read chatRoom of undefined"
    ∧ handleRedisMessage (messageDeletedPayload "m1")
      = Except.error "TypeError: cannot read chatRoom of undefined"
    ∧ handleRedisMessage (messagesReadPayload "u1" ["m1"])
      = Except.error "TypeError: cannot read chatRoom of undefined" :=
  ⟨rfl, rfl, rfl, rfl, rfl⟩

/-- C3: the claim says every successful mutation removes every cached
history entry of the message's room, so a following `getChatHistory`
cannot serve a pre-mutation page. The mutations call
`deleteCache('chat_history:<room>*')`, but `deleteCache` issues a
literal `DEL`, which does not glob: the entry keyed
`chat_history:r1:1:50` survives the edit, and the next
`getChatHistory` serves the stale pre-edit page (content `hi there`
although the stored message now reads `edited content`). -/
theorem c3_history_cache_not_invalidated :
    ∃ store1 : List Message,
      editMessage c3Store c3CacheAfterRead "m1" "u1" "edited content" 2
        = Except.ok (store1, c3CacheAfterRead)
      ∧ (store1.map (fun m => m.content)) = ["edited content"]
      ∧ (getChatHistory store1 c3CacheAfterRead "r1" 1 50).1.messages.map
          (fun m => m.content) = ["hi there"] := by
  exact ⟨_, rfl, rfl, rfl⟩

/-- If the trimmed content is non-empty, the content itself is not the
empty string (the first disjunct of the handler's validation). -/
theorem beq_empty_false_of_jsTrim (content : String)
    (htrim : (jsTrim content == "") = false) : (content == "") = false := by
  cases h' : content == ""
  · rfl
  · have hc : content = "" := by simpa using h'
    subst hc
    have ht : (jsTrim "" == "") = true := rfl
    exact Bool.noConfusion (ht.symm.trans htrim)

/-- C4: a `send_message` request whose content trims to empty or is
longer than 1000 characters emits a caller-only error, hands nothing to
the persistence service and broadcasts nothing; a valid request hands
the trimmed message data to the service and broadcasts the saved
message as `new_message` to the whole room (`io.to(roomId)`, sender
included). -/
theorem c4_send_message_validation_and_broadcast (u r content : String)
    (save : MessageData → Except String Message) (newId : String) (now : Nat) :
    ((jsTrim content == "") = true →
      sendMessageHandler u r content save =
        { emits := [⟨Target.caller, "error"⟩], persistedWith := none, broadcast := none })
    ∧ ((jsTrim content == "") = false → 1000 < content.length →
      sendMessageHandler u r content save =
        { emits := [⟨Target.caller, "error"⟩], persistedWith := none, broadcast := none })
    ∧ ((jsTrim content == "") = false → content.length ≤ 1000 →
      sendMessageHandler u r content (fun md => Except.ok (mkSavedMessage md newId now)) =
        { emits := [⟨Target.room r, "new_message"⟩]
          persistedWith := some (sendMessageData u r content)
          broadcast := some (mkSavedMessage (sendMessageData u r content) newId now) }) := by
  refine ⟨?_, ?_, ?_⟩
  · intro h
    simp [sendMessageHandler, h]
  · intro htrim hlen
    have hempty := beq_empty_false_of_jsTrim content htrim
    simp [sendMessageHandler, hempty, htrim, hlen]
  · intro htrim hlen
    have hempty := beq_empty_false_of_jsTrim content htrim
    have hnl : ¬ (1000 < content.length) := by omega
    simp [sendMessageHandler, hempty, htrim, hnl]

/-- C4 witness: whitespace-only content, 1001-character content, and a
valid message, each at concrete inputs. -/
theorem c4_send_message_witness :
    sendMessageHandler "u1" "r1" "   " (fun md => Except.ok (mkSavedMessage md "m9" 9)) =
      { emits := [⟨Target.caller, "error"⟩], persistedWith := none, broadcast := none }
    ∧ sendMessageHandler "u1" "r1" longContent (fun md => Except.ok (mkSavedMessage md "m9" 9)) =
      { emits := [⟨Target.caller, "error"⟩], persistedWith := none, broadcast := none }
    ∧ sendMessageHandler "u1" "r1" " hello " (fun md => Except.ok (mkSavedMessage md "m9" 9)) =
      { emits := [⟨Target.room "r1", "new_message"⟩]
        persistedWith := some (sendMessageData "u1" "r1" " hello ")
        broadcast := some (mkSavedMessage (sendMessageData "u1" "r1" " hello ") "m9" 9) } :=
  ⟨(c4_send_message_validation_and_broadcast "u1" "r1" "   "
      (fun md => Except.ok (mkSavedMessage md "m9" 9)) "m9" 9).1 (by decide),
   (c4_send_message_validation_and_broadcast "u1" "r1" longContent
      (fun md => Except.ok (mkSavedMessage md "m9" 9)) "m9" 9).2.1
     (by decide) (by decide),
   (c4_send_message_validation_and_broadcast "u1" "r1" " hello "
      (fun md => Except.ok (mkSavedMessage md "m9" 9)) "m9" 9).2.2
     (by decide) (by decide)⟩

/-- C6: a first successful edit by the sender snapshots the pre-edit
content into `originalContent`; a second edit overwrites the content
and timestamp again but leaves `originalContent` at the pre-first-edit
content (the snapshot guard `if (!message.originalContent)` sees a
non-empty snapshot and does not overwrite it). The hypotheses state the
reachable-state invariants: the message has not been edited before and
its content is non-empty (the schema requires content). The first
conjunct ties the document-level step to the service: for the sender,
`editMessage` saves exactly `editMessageDoc`. -/
theorem c6_original_content_survives_second_edit (m : Message)
    (c : Cache HistoryResult) (c1 c2 : String) (t1 t2 : Nat)
    (h0 : m.originalContent = none) (hc : m.content ≠ "") :
    editMessage [m] c m.id m.sender c1 t1 =
      Except.ok ([editMessageDoc m c1 t1], deleteCache c (historyWildcard m.chatRoom))
    ∧ (editMessageDoc m c1 t1).content = c1
    ∧ (editMessageDoc m c1 t1).editedAt = some t1
    ∧ (editMessageDoc m c1 t1).originalContent = some m.content
    ∧ (editMessageDoc (editMessageDoc m c1 t1) c2 t2).content = c2
    ∧ (editMessageDoc (editMessageDoc m c1 t1) c2 t2).editedAt = some t2
    ∧ (editMessageDoc (editMessageDoc m c1 t1) c2 t2).originalContent = some m.content := by
  have hbeq : (m.content == "") = false := beq_eq_false_iff_ne.mpr hc
  refine ⟨?_, ?_, ?_, ?_, ?_, ?_, ?_⟩
  · simp [editMessage]
  · simp [editMessageDoc]
  · simp [editMessageDoc]
  · simp [editMessageDoc, truthyOptStr, h0]
  · simp [editMessageDoc]
  · simp [editMessageDoc]
  · simp [editMessageDoc, truthyOptStr, h0, hbeq]

/-- C6 witness: the sample message edited twice at concrete inputs. -/
theorem c6_original_content_witness :
    editMessage [sampleMessage] [] sampleMessage.id sampleMessage.sender "first edit" 10 =
      Except.ok ([editMessageDoc sampleMessage "first edit" 10],
        deleteCache [] (historyWildcard sampleMessage.chatRoom))
    ∧ (editMessageDoc sampleMessage "first edit" 10).content = "first edit"
    ∧ (editMessageDoc sampleMessage "first edit" 10).editedAt = some 10
    ∧ (editMessageDoc sampleMessage "first edit" 10).originalContent = some sampleMessage.content
    ∧ (editMessageDoc (editMessageDoc sampleMessage "first edit" 10) "second edit" 20).content
        = "second edit"
    ∧ (editMessageDoc (editMessageDoc sampleMessage "first edit" 10) "second edit" 20).editedAt
        = some 20
    ∧ (editMessageDoc (editMessageDoc sampleMessage "first edit" 10) "second edit" 20).originalContent
        = some sampleMessage.content :=
  c6_original_content_survives_second_edit sampleMessage [] "first edit" "second edit" 10 20
    rfl (by decide)

/-- C9: the claim says every client-event handler catches a throwing
service call and emits a caller-scoped error event. The
`mark_messages_read` handler catches but only logs: it emits no event
at all on failure, so the claim fails at that handler. -/
theorem c9_mark_read_failure_emits_no_error :
    ¬ (Emit.mk Target.caller "error" ∈
        markMessagesReadHandler (Except.error "Database failure")) := by
  simp [markMessagesReadHandler]

/-- C9 (amended): every client-event handler catches a throwing service
call and returns normally (the failure never escapes the handler);
`join_room`, `send_message`, `add_reaction`, `remove_reaction`,
`edit_message` and `delete_message` emit a caller-scoped `error` event,
while `mark_messages_read` swallows the failure silently, emitting
nothing. -/
theorem c9_handlers_catch_and_scope_errors (e : String) :
    addReactionHandler (Except.error e) = [⟨Target.caller, "error"⟩]
    ∧ removeReactionHandler (Except.error e) = [⟨Target.caller, "error"⟩]
    ∧ editMessageHandler (Except.error e) = [⟨Target.caller, "error"⟩]
    ∧ deleteMessageHandler (Except.error e) = [⟨Target.caller, "error"⟩]
    ∧ markMessagesReadHandler (Except.error e) = []
    ∧ (∀ u r t, validateRoomAccess u r t = true →
        joinRoomHandler u r t (Except.error e) =
          { joined := true, emits := [⟨Target.caller, "error"⟩] })
    ∧ (∀ u r content, (jsTrim content == "") = false → content.length ≤ 1000 →
        sendMessageHandler u r content (fun _ => Except.error e) =
          { emits := [⟨Target.caller, "error"⟩]
            persistedWith := some (sendMessageData u r content)
            broadcast := none }) := by
  refine ⟨rfl, rfl, rfl, rfl, rfl, ?_, ?_⟩
  · intro u r t h
    simp [joinRoomHandler, h]
  · intro u r content htrim hlen
    have hempty := beq_empty_false_of_jsTrim content htrim
    have hnl : ¬ (1000 < content.length) := by omega
    simp [sendMessageHandler, hempty, htrim, hnl]

/-- C9 witness: each handler applied to a concrete throwing service
call. -/
theorem c9_handlers_witness :
    addReactionHandler (Except.error "boom") = [⟨Target.caller, "error"⟩]
    ∧ markMessagesReadHandler (Except.error "boom") = []
    ∧ joinRoomHandler "u1" "qa_j1_u1" "qa_chat" (Except.error "boom") =
        { joined := true, emits := [⟨Target.caller, "error"⟩] }
    ∧ sendMessageHandler "u1" "r1" "hello" (fun _ => Except.error "boom") =
        { emits := [⟨Target.caller, "error"⟩]
          persistedWith := some (sendMessageData "u1" "r1" "hello")
          broadcast := none } := by
  obtain ⟨h1, _, _, _, h5, h6, h7⟩ := c9_handlers_catch_and_scope_errors "boom"
  exact ⟨h1, h5, h6 "u1" "qa_j1_u1" "qa_chat" rfl,
         h7 "u1" "r1" "hello" (by decide) (by decide)⟩

/-- C10: the `disconnect` handler removes the user's presence entry
keyed only by the user id, regardless of which socket disconnects: for
any presence map the entry vanishes, and in the two-connection scenario
(older socket `s1`, newer socket `s2` having overwritten the mapping)
processing the older socket's disconnect leaves no entry for the user
although the newer connection is still live. -/
theorem c10_disconnect_drops_presence_entry (m : PresenceMap)
    (u s1 s2 sid : String) (hne : s1 ≠ s2) :
    presenceGet (handleDisconnect m u sid) u = none
    ∧ presenceGet (handleConnection (handleConnection [] u s1) u s2) u = some s2
    ∧ presenceGet
        (handleDisconnect (handleConnection (handleConnection [] u s1) u s2) u s1) u = none :=
  have _ := hne
  ⟨by simp [handleDisconnect, presenceDelete, presenceGet, List.find?_filter],
   by simp [handleConnection, presenceSet, presenceGet],
   by simp [handleDisconnect, handleConnection, presenceSet, presenceDelete, presenceGet,
        List.find?_filter]⟩

/-- C10 witness: the two-connection scenario at concrete inputs. -/
theorem c10_disconnect_witness :
    presenceGet (handleDisconnect [] "u7" "a") "u7" = none
    ∧ presenceGet (handleConnection (handleConnection [] "u7" "a") "u7" "b") "u7" = some "b"
    ∧ presenceGet
        (handleDisconnect (handleConnection (handleConnection [] "u7" "a") "u7" "b") "u7" "a")
        "u7" = none :=
  c10_disconnect_drops_presence_entry [] "u7" "a" "b" "a" (by decide)

/-- A user with no reaction in an array contributes nothing to its
filter. -/
theorem reactionsFor_nil_of_any_eq_false (rs : List Reaction) (u : String)
    (h : rs.any (fun r => r.user == u) = false) : reactionsFor rs u = [] := by
  simp only [List.any_eq_false] at h
  simp only [reactionsFor, List.filter_eq_nil_iff]
  exact h

/-- `updateFirstEmoji` changes only an emoji, so per-user reaction
counts are unchanged. -/
theorem length_reactionsFor_updateFirstEmoji (rs : List Reaction) (u e w : String) :
    (reactionsFor (updateFirstEmoji rs u e) w).length = (reactionsFor rs w).length := by
  induction rs with
  | nil => rfl
  | cons r rs ih =>
      simp only [updateFirstEmoji]
      cases hr : r.user == u
      · simp only [Bool.false_eq_true, if_false, reactionsFor, List.filter]
        cases hw : r.user == w
        · simpa [reactionsFor] using ih
        · simpa [reactionsFor] using ih
      · simp only [if_true]
        simp only [reactionsFor, List.filter]
        cases hw : r.user == w <;> simp [hw]

/-- When the user already has (at most one) reaction, updating its
emoji leaves exactly that one entry, holding the new emoji. -/
theorem emoji_of_updateFirstEmoji (rs : List Reaction) (u e : String)
    (hany : rs.any (fun r => r.user == u) = true)
    (hlen : (reactionsFor rs u).length ≤ 1) :
    (reactionsFor (updateFirstEmoji rs u e) u).map (fun r => r.emoji) = [e] := by
  induction rs with
  | nil => simp at hany
  | cons r rs ih =>
      simp only [updateFirstEmoji]
      cases hr : r.user == u
      · simp only [Bool.false_eq_true, if_false]
        have hany' : rs.any (fun r => r.user == u) = true := by
          simp only [List.any_cons, hr, Bool.false_or] at hany
          exact hany
        have hlen' : (reactionsFor rs u).length ≤ 1 := by
          simp only [reactionsFor, List.filter, hr] at hlen ⊢
          exact hlen
        simp only [reactionsFor, List.filter, hr]
        exact ih hany' hlen'
      · simp only [if_true]
        have hnil : List.filter (fun x => x.user == u) rs = [] := by
          simp only [reactionsFor, List.filter, hr, List.length_cons] at hlen
          have h0 : (List.filter (fun x => x.user == u) rs).length = 0 := by omega
          exact List.eq_nil_of_length_eq_zero h0
        simp [reactionsFor, List.filter, hr, hnil]

/-- The upsert `addReactionList` leaves the acting user with exactly
one reaction entry, holding the new emoji. -/
theorem emoji_of_addReactionList (rs : List Reaction) (u e : String) (t : Nat)
    (hlen : (reactionsFor rs u).length ≤ 1) :
    (reactionsFor (addReactionList rs u e t) u).map (fun r => r.emoji) = [e] := by
  cases hany : rs.any (fun r => r.user == u)
  · have hnil := reactionsFor_nil_of_any_eq_false rs u hany
    simp only [addReactionList, hany, Bool.false_eq_true, if_false]
    simp only [reactionsFor, List.filter_append] at hnil ⊢
    simp [hnil]
  · simp only [addReactionList, hany, if_true]
    exact emoji_of_updateFirstEmoji rs u e hany hlen

/-- The upsert does not touch the reactions of other users. -/
theorem length_reactionsFor_addReactionList_ne (rs : List Reaction)
    (u e w : String) (t : Nat) (hw : ¬ w = u) :
    (reactionsFor (addReactionList rs u e t) w).length = (reactionsFor rs w).length := by
  cases hany : rs.any (fun r => r.user == u)
  · simp only [addReactionList, hany, Bool.false_eq_true, if_false]
    simp only [reactionsFor, List.filter_append]
    simp [show ((u == w) : Bool) = false from by simpa using fun h => hw (by simp [h])]
  · simp only [addReactionList, hany, if_true]
    exact length_reactionsFor_updateFirstEmoji rs u e w

/-- After `removeReactionList` the acting user has no reaction left. -/
theorem reactionsFor_removeReactionList_self (rs : List Reaction) (u : String) :
    reactionsFor (removeReactionList rs u) u = [] := by
  simp only [reactionsFor, List.filter_eq_nil_iff]
  intro a ha
  have h2 := (List.mem_filter.mp ha).2
  simp only [removeReactionList] at h2 ⊢
  simp at h2 ⊢
  exact h2

/-- Removal never increases any user's reaction count. -/
theorem length_reactionsFor_removeReactionList_le (rs : List Reaction) (u w : String) :
    (reactionsFor (removeReactionList rs u) w).length ≤ (reactionsFor rs w).length :=
  List.Sublist.length_le (List.Sublist.filter _ (List.filter_sublist rs))

/-- Removing a reaction the user does not have is a no-op. -/
theorem removeReactionList_no_op (rs : List Reaction) (u : String)
    (h : reactionsFor rs u = []) : removeReactionList rs u = rs := by
  rw [removeReactionList, List.filter_eq_self]
  intro a ha
  simp only [reactionsFor, List.filter_eq_nil_iff] at h
  simpa using h a ha

/-- The upsert preserves the at-most-one-reaction-per-user invariant. -/
theorem atMostOnePerUser_addReactionList (rs : List Reaction) (u e : String) (t : Nat)
    (h : atMostOnePerUser rs) : atMostOnePerUser (addReactionList rs u e t) := by
  intro w
  by_cases hw : w = u
  · subst hw
    have hm := emoji_of_addReactionList rs w e t (h w)
    have hlen : (reactionsFor (addReactionList rs w e t) w).length = 1 := by
      have := congrArg List.length hm
      simpa using this
    omega
  · rw [length_reactionsFor_addReactionList_ne rs u e w t hw]
    exact h w

/-- Removal preserves the at-most-one-reaction-per-user invariant. -/
theorem atMostOnePerUser_removeReactionList (rs : List Reaction) (u : String)
    (h : atMostOnePerUser rs) : atMostOnePerUser (removeReactionList rs u) := by
  intro w
  exact le_trans (length_reactionsFor_removeReactionList_le rs u w) (h w)

/-- Every sequence of reaction operations preserves the invariant. -/
theorem atMostOnePerUser_applyReactOps (m : Message) (ops : List ReactOp)
    (h : atMostOnePerUser m.reactions) :
    atMostOnePerUser (applyReactOps m ops).reactions := by
  induction ops generalizing m with
  | nil => exact h
  | cons op ops ih =>
      have hstep : atMostOnePerUser (applyReactOp m op).reactions := by
        cases op with
        | add u e t => exact atMostOnePerUser_addReactionList m.reactions u e t h
        | remove u => exact atMostOnePerUser_removeReactionList m.reactions u h
      simpa [applyReactOps, List.foldl_cons] using ih (applyReactOp m op) hstep

/-- C7: on a message satisfying the at-most-one-reaction-per-user
invariant, adding a reaction twice for the same user leaves exactly one
entry for that user, holding the latest emoji; every sequence of
add/remove operations preserves the invariant; `removeReaction`
removes the user's entry and is a no-op when the user has none. -/
theorem c7_reaction_upsert_keyed_per_user (m : Message) (u e1 e2 v : String)
    (t1 t2 : Nat) (hinv : atMostOnePerUser m.reactions) :
    (reactionsFor ((m.addReaction u e1 t1).addReaction u e2 t2).reactions u).map
        (fun r => r.emoji) = [e2]
    ∧ (∀ ops : List ReactOp, atMostOnePerUser (applyReactOps m ops).reactions)
    ∧ reactionsFor (m.removeReaction v).reactions v = []
    ∧ (reactionsFor m.reactions v = [] → m.removeReaction v = m) := by
  refine ⟨?_, ?_, ?_, ?_⟩
  · simp only [Message.addReaction]
    have hm := emoji_of_addReactionList m.reactions u e1 t1 (hinv u)
    have hlen := congrArg List.length hm
    simp only [List.length_map, List.length_singleton] at hlen
    exact emoji_of_addReactionList _ u e2 t2 (by omega)
  · intro ops
    exact atMostOnePerUser_applyReactOps m ops hinv
  · exact reactionsFor_removeReactionList_self m.reactions v
  · intro h
    have hr := removeReactionList_no_op m.reactions v h
    cases m
    simp only [Message.removeReaction] at hr ⊢
    simp [hr]

/-- C7 witness: the double-add, an add/remove sequence and the no-op
removal on the sample message. -/
theorem c7_reaction_witness :
    (reactionsFor ((sampleMessage.addReaction "u2" "like" 5).addReaction "u2" "love" 6).reactions
        "u2").map (fun r => r.emoji) = ["love"]
    ∧ atMostOnePerUser
        (applyReactOps sampleMessage [ReactOp.add "u2" "like" 5, ReactOp.remove "u2"]).reactions
    ∧ reactionsFor (sampleMessage.removeReaction "u3").reactions "u3" = []
    ∧ sampleMessage.removeReaction "u3" = sampleMessage := by
  obtain ⟨h1, h2, h3, h4⟩ :=
    c7_reaction_upsert_keyed_per_user sampleMessage "u2" "like" "love" "u3" 5 6
      (by intro w; simp [sampleMessage, reactionsFor])
  exact ⟨h1, h2 [ReactOp.add "u2" "like" 5, ReactOp.remove "u2"], h3,
         h4 (by simp [sampleMessage, reactionsFor])⟩

/-- A user with no read receipt in an array contributes nothing to its
filter. -/
theorem readsFor_nil_of_any_eq_false (es : List ReadEntry) (u : String)
    (h : es.any (fun r => r.user == u) = false) : readsFor es u = [] := by
  simp only [List.any_eq_false] at h
  simp only [readsFor, List.filter_eq_nil_iff]
  exact h

/-- After the mark-read update runs on a message, that message no
longer matches the mark-read query (it either gained the user's receipt
or did not match to begin with). -/
theorem matchesReadQuery_after_update (r u : String) (L : List String)
    (t : Nat) (m : Message) :
    matchesReadQuery r u L
      (if matchesReadQuery r u L m then
        { m with readBy := m.readBy ++ [⟨u, t⟩] }
      else m) = false := by
  cases hc : matchesReadQuery r u L m
  · simp [hc]
  · simp only [hc, if_true]
    simp only [matchesReadQuery, List.any_append, List.any_cons, List.any_nil]
    simp

/-- C8: `markMessagesAsRead` is idempotent. The first call's count is
the number of messages of the room not yet read by the user (restricted
to the requested ids when the list is non-empty); a second identical
call changes nothing and reports 0; no message ever ends up with more
than one receipt for the user (first read wins); and with an empty id
list every message of the room carries the user's receipt
afterwards. -/
theorem c8_mark_messages_read_idempotent (store : List Message) (r u : String)
    (L : List String) (t1 t2 : Nat)
    (hinv : ∀ m ∈ store, (readsFor m.readBy u).length ≤ 1) :
    (markMessagesAsRead store r u L t1).2 =
      (store.filter (fun m => m.chatRoom == r
        && !(m.readBy.any (fun e => e.user == u))
        && (L.isEmpty || L.contains m.id))).length
    ∧ markMessagesAsRead (markMessagesAsRead store r u L t1).1 r u L t2 =
        ((markMessagesAsRead store r u L t1).1, 0)
    ∧ (∀ m ∈ (markMessagesAsRead store r u L t1).1, (readsFor m.readBy u).length ≤ 1)
    ∧ (L = [] → ∀ m ∈ (markMessagesAsRead store r u L t1).1,
        m.chatRoom = r → m.readBy.any (fun e => e.user == u) = true) := by
  have hfalse : ∀ x ∈ (markMessagesAsRead store r u L t1).1,
      matchesReadQuery r u L x = false := by
    intro x hx
    simp only [markMessagesAsRead, List.mem_map] at hx
    obtain ⟨m, _, rfl⟩ := hx
    exact matchesReadQuery_after_update r u L t1 m
  refine ⟨rfl, ?_, ?_, ?_⟩
  · have h1 : List.map (fun m =>
        if matchesReadQuery r u L m then
          { m with readBy := m.readBy ++ [(⟨u, t2⟩ : ReadEntry)] }
        else m) (markMessagesAsRead store r u L t1).1 =
        (markMessagesAsRead store r u L t1).1 := by
      refine (List.map_congr_left ?_).trans (List.map_id _)
      intro a ha
      simp [hfalse a ha]
    have h2 : (List.filter (matchesReadQuery r u L)
        (markMessagesAsRead store r u L t1).1).length = 0 := by
      rw [List.length_eq_zero, List.filter_eq_nil_iff]
      intro a ha
      simp [hfalse a ha]
    conv_lhs => rw [markMessagesAsRead]
    rw [Prod.mk.injEq]
    exact ⟨h1, h2⟩
  · intro m hm
    simp only [markMessagesAsRead, List.mem_map] at hm
    obtain ⟨x, hx, rfl⟩ := hm
    cases hc : matchesReadQuery r u L x
    · simpa [hc] using hinv x hx
    · have hb : (x.readBy.any (fun e => e.user == u)) = false := by
        simp only [matchesReadQuery, Bool.and_eq_true] at hc
        simpa using hc.1.2
      have hnil := readsFor_nil_of_any_eq_false x.readBy u hb
      simp only [hc, if_true]
      simp only [readsFor, List.filter_append] at hnil ⊢
      simp [hnil]
  · intro hL m hm hroom
    subst hL
    simp only [markMessagesAsRead, List.mem_map] at hm
    obtain ⟨x, hx, rfl⟩ := hm
    cases hc : matchesReadQuery r u [] x
    · have hxroom : x.chatRoom = r := by simpa [hc] using hroom
      cases hany : x.readBy.any (fun e => e.user == u)
      · exfalso
        have ht : matchesReadQuery r u [] x = true := by
          simp [matchesReadQuery, hxroom, hany]
        rw [hc] at ht
        exact Bool.noConfusion ht
      · simpa [hc] using hany
    · simp only [hc, if_true]
      simp [List.any_append]

/-- C8 witness: marking the sample room twice for a concrete user. -/
theorem c8_mark_read_witness :
    markMessagesAsRead (markMessagesAsRead [sampleMessage] "r1" "u2" [] 7).1 "r1" "u2" [] 8
      = ((markMessagesAsRead [sampleMessage] "r1" "u2" [] 7).1, 0)
    ∧ (∀ m ∈ (markMessagesAsRead [sampleMessage] "r1" "u2" [] 7).1,
        (readsFor m.readBy "u2").length ≤ 1)
    ∧ (∀ m ∈ (markMessagesAsRead [sampleMessage] "r1" "u2" [] 7).1,
        m.chatRoom = "r1" → m.readBy.any (fun e => e.user == "u2") = true) := by
  obtain ⟨_, h2, h3, h4⟩ :=
    c8_mark_messages_read_idempotent [sampleMessage] "r1" "u2" [] 7 8
      (by intro m hm; simp [sampleMessage] at hm; simp [hm, sampleMessage, readsFor])
  exact ⟨h2, h3, h4 rfl⟩

/-- Membership through the descending insertion step. -/
theorem mem_insertByCreatedAtDesc {x m : Message} {l : List Message} :
    x ∈ insertByCreatedAtDesc m l ↔ x = m ∨ x ∈ l := by
  induction l with
  | nil => simp [insertByCreatedAtDesc]
  | cons a l ih =>
      simp only [insertByCreatedAtDesc]
      by_cases h : a.createdAt ≤ m.createdAt
      · simp [h]
      · rw [if_neg h]
        simp only [List.mem_cons, ih]
        tauto

/-- Sorting newest-first neither adds nor removes messages. -/
theorem mem_sortByCreatedAtDesc {x : Message} {l : List Message} :
    x ∈ sortByCreatedAtDesc l ↔ x ∈ l := by
  induction l with
  | nil => simp [sortByCreatedAtDesc]
  | cons a l ih => simp [sortByCreatedAtDesc, mem_insertByCreatedAtDesc, ih]

/-- The insertion step preserves descending order by `createdAt`. -/
theorem sorted_insertByCreatedAtDesc (m : Message) (l : List Message)
    (h : l.Pairwise (fun a b => b.createdAt ≤ a.createdAt)) :
    (insertByCreatedAtDesc m l).Pairwise (fun a b => b.createdAt ≤ a.createdAt) := by
  induction l with
  | nil => simp [insertByCreatedAtDesc]
  | cons a l ih =>
      rw [List.pairwise_cons] at h
      obtain ⟨ha, hl⟩ := h
      simp only [insertByCreatedAtDesc]
      by_cases hc : a.createdAt ≤ m.createdAt
      · rw [if_pos hc, List.pairwise_cons]
        refine ⟨?_, List.Pairwise.cons ha hl⟩
        intro y hy
        rcases List.mem_cons.mp hy with rfl | hyl
        · exact hc
        · exact le_trans (ha y hyl) hc
      · rw [if_neg hc, List.pairwise_cons]
        refine ⟨?_, ih hl⟩
        intro y hy
        rcases mem_insertByCreatedAtDesc.mp hy with rfl | hyl
        · omega
        · exact ha y hyl

/-- `sortByCreatedAtDesc` really sorts newest first. -/
theorem sorted_sortByCreatedAtDesc (l : List Message) :
    (sortByCreatedAtDesc l).Pairwise (fun a b => b.createdAt ≤ a.createdAt) := by
  induction l with
  | nil => simp [sortByCreatedAtDesc]
  | cons a l ih => exact sorted_insertByCreatedAtDesc a _ ih

/-- C5: on a cache hit `getChatHistory` returns the cached result and
leaves the cache alone; on a miss the returned page is the newest-first
slice of the room's non-soft-deleted messages reversed to
oldest-to-newest order — so every returned message belongs to the room,
none is soft-deleted, the page is ascending by creation time — and the
fresh result is cached under the room/page/size key with a 300-second
TTL. -/
theorem c5_get_chat_history_contract (store : List Message)
    (c : Cache HistoryResult) (room : String) (page limit : Nat) :
    (∀ cached, getCache c (historyKey room page limit) = some cached →
        getChatHistory store c room page limit = (cached, c))
    ∧ (getCache c (historyKey room page limit) = none →
        (getChatHistory store c room page limit).1.messages =
          (((sortByCreatedAtDesc (store.filter
              (fun m => m.chatRoom == room && m.isDeleted == false))).drop
                ((page - 1) * limit)).take limit).reverse
        ∧ (∀ m ∈ (getChatHistory store c room page limit).1.messages,
            m.chatRoom = room ∧ m.isDeleted = false)
        ∧ (getChatHistory store c room page limit).1.messages.Pairwise
            (fun a b => a.createdAt ≤ b.createdAt)
        ∧ (getChatHistory store c room page limit).2 =
            setCache c (historyKey room page limit)
              (getChatHistory store c room page limit).1 300) := by
  refine ⟨?_, ?_⟩
  · intro cached hcache
    simp [getChatHistory, hcache]
  · intro hmiss
    refine ⟨?_, ?_, ?_, ?_⟩
    · simp [getChatHistory, hmiss]
    · intro m hm
      simp only [getChatHistory, hmiss] at hm
      rw [List.mem_reverse] at hm
      have hm2 := List.take_subset _ _ hm
      have hm3 := List.drop_subset _ _ hm2
      have hm4 := mem_sortByCreatedAtDesc.mp hm3
      have hcond := (List.mem_filter.mp hm4).2
      simp only [Bool.and_eq_true, beq_iff_eq] at hcond
      exact ⟨hcond.1, by simpa using hcond.2⟩
    · simp only [getChatHistory, hmiss]
      rw [List.pairwise_reverse]
      exact List.Pairwise.sublist
        ((List.take_sublist _ _).trans (List.drop_sublist _ _))
        (sorted_sortByCreatedAtDesc _)
    · simp [getChatHistory, hmiss]

/-- C5 witness: a concrete miss on the empty cache followed by a hit on
the resulting cache. -/
theorem c5_get_chat_history_witness :
    getChatHistory c3Store c3CacheAfterRead "r1" 1 50 =
      ((getChatHistory c3Store [] "r1" 1 50).1, c3CacheAfterRead)
    ∧ (∀ m ∈ (getChatHistory c3Store [] "r1" 1 50).1.messages,
        m.chatRoom = "r1" ∧ m.isDeleted = false)
    ∧ (getChatHistory c3Store [] "r1" 1 50).1.messages.Pairwise
        (fun a b => a.createdAt ≤ b.createdAt)
    ∧ (getChatHistory c3Store [] "r1" 1 50).2 =
        setCache [] (historyKey "r1" 1 50) (getChatHistory c3Store [] "r1" 1 50).1 300 := by
  obtain ⟨hhit, -⟩ := c5_get_chat_history_contract c3Store c3CacheAfterRead "r1" 1 50
  obtain ⟨-, hmiss⟩ := c5_get_chat_history_contract c3Store [] "r1" 1 50
  obtain ⟨-, h2, h3, h4⟩ := hmiss rfl
  exact ⟨hhit (getChatHistory c3Store [] "r1" 1 50).1 rfl, h2, h3, h4⟩

end Chat
